import Mathlib

/-!
Shallow embedding of `src/privacy_zones/scripts/zoneServer.py` (class
`ZoneServer`), together with theorems settling the frozen claims about it.

The embedded operations are:
  * `handle_list_devices` — the `get_devices_in_zone` service handler
    (lines 52–68), with the device registry (`peac/get_device_info`)
    passed in as a function and an explicit log of the registry calls
    it issues;
  * `get_peac_locations` — zone/location correlation (lines 92–107);
  * `localize_in_zone` — the localization dispatcher (lines 119–133);
  * `process_membership` / `check_transition` — the pose-driven
    transition engine (lines 70–78 and 135–153);
  * `odom_cb` / `pose_with_cov_cb` — the odometry and covariance
    observation adapters (lines 80–90).

The `Zones` container and its `Zone` class live in
`privacy_zones/map_geometry.py`, which is not among the sources; where
their behaviour matters (name lookup, zone identity, the polygon message
of a zone) it is modelled from the spec and marked as such.
-/

namespace ZoneServer

/-- Modelled from the spec: a Zone has a unique name, an ordered list of
2-D vertices and a coordinate-frame identifier (the concrete `Zone` class
is in `map_geometry.py`, not among the sources). Zone identity for set
operations is its name. -/
structure Zone where
  name : String
  vertices : List (Int × Int)
  frame_id : String
deriving DecidableEq

/-- A location from the external registry (`peac/list_locations`). -/
structure Location where
  locationId : Nat
  locName : String
deriving DecidableEq

/-- One entry of the `zone_controls` configuration: a descriptor
`{deviceId, controlId, control}` attached to a zone name. -/
structure ControlDesc where
  deviceId : Nat
  controlId : Nat
  control : String
deriving DecidableEq

/-- One control record returned by `peac/get_device_info`: the fields the
server reads are `controlId` and `numVal`. -/
structure ControlInfo where
  controlId : Nat
  numVal : Int
deriving DecidableEq

/-- The `ZoneControl` message built by `handle_list_devices`. -/
structure ZoneControl where
  zone : String
  controlId : Nat
  deviceId : Nat
  name : String
  numVal : Int
deriving DecidableEq

/-- Errors surfaced by the device-listing handler: a failed
`get_device_info` service call, or a `KeyError` when a descriptor's
`controlId` is absent from the cache after the device was queried. -/
inductive DevErr
  | registryFail
  | keyError
deriving DecidableEq

/-- The device registry `peac/get_device_info`, an external collaborator:
maps a deviceId to the device's controls, or fails. -/
def Registry : Type := Nat → Except Unit (List ControlInfo)

/-- The `zone_controls` YAML mapping: zone name to its descriptors. -/
def ZoneControlsCfg : Type := List (String × List ControlDesc)

/-- `self.zone_controls.get(req.zone, [])` (line 56). -/
def zoneControlsFor (zc : ZoneControlsCfg) (z : String) : List ControlDesc :=
  (zc.lookup z).getD []

/-- `for cc in self.get_device_info(...).controls: control_cache[cc.controlId] = cc`
(lines 58–59): each returned control is written into the dict, later
entries overwriting earlier ones; modelled by prepending so that
`List.lookup` finds the latest write. -/
def updateCache (cache : List (Nat × ControlInfo)) (ccs : List ControlInfo) :
    List (Nat × ControlInfo) :=
  ccs.foldl (fun m cc => (cc.controlId, cc) :: m) cache

/-- The `ZoneControl(...)` message constructed on lines 61–67. -/
def mkZC (z : String) (c : ControlDesc) (cc : ControlInfo) : ZoneControl :=
  ⟨z, c.controlId, c.deviceId, c.control, cc.numVal⟩

/-- The loop body of `handle_list_devices` (lines 56–67), threading the
request-scoped `control_cache`, the accumulated `zcs` list, and a log of
the registry calls issued, each recorded as
(triggering controlId, queried deviceId). A failed registry call or a
missing cache entry aborts with the error and the log so far. -/
def listControlsAux (reg : Registry) (z : String) :
    List ControlDesc → List (Nat × ControlInfo) → List (Nat × Nat) →
    List ZoneControl → Except DevErr (List ZoneControl) × List (Nat × Nat)
  | [], _cache, log, zcs => (Except.ok zcs, log)
  | c :: rest, cache, log, zcs =>
    match cache.lookup c.controlId with
    | some cc => listControlsAux reg z rest cache log (zcs ++ [mkZC z c cc])
    | none =>
      match reg c.deviceId with
      | Except.error _ =>
          (Except.error DevErr.registryFail, log ++ [(c.controlId, c.deviceId)])
      | Except.ok ccs =>
        match (updateCache cache ccs).lookup c.controlId with
        | none =>
            (Except.error DevErr.keyError, log ++ [(c.controlId, c.deviceId)])
        | some cc =>
            listControlsAux reg z rest (updateCache cache ccs)
              (log ++ [(c.controlId, c.deviceId)]) (zcs ++ [mkZC z c cc])

/-- `handle_list_devices` (lines 52–68): a fresh empty `control_cache` is
created for the invocation, then the descriptors of the requested zone are
processed in order. The second component is the registry-call log. -/
def handle_list_devices (reg : Registry) (zc : ZoneControlsCfg) (z : String) :
    Except DevErr (List ZoneControl) × List (Nat × Nat) :=
  listControlsAux reg z (zoneControlsFor zc z) [] [] []

/-- The registry-call log of one `handle_list_devices` invocation. -/
def devQueryLog (reg : Registry) (zc : ZoneControlsCfg) (z : String) :
    List (Nat × Nat) :=
  (handle_list_devices reg zc z).2

/-- A sequence of `handle_list_devices` invocations run one after the
other (the `list_devices_lock` serializes them in the program); each
invocation carries its own registry view and requested zone, and no state
persists between them, mirroring the request-local `control_cache`. -/
def run_seq (zc : ZoneControlsCfg) :
    List (Registry × String) →
    List (Except DevErr (List ZoneControl) × List (Nat × Nat))
  | [] => []
  | pr :: rest => handle_list_devices pr.1 zc pr.2 :: run_seq zc rest

/-- `get_peac_locations` (lines 92–107): list the zone's controls, take the
set of their deviceIds, fetch all locations, and keep — in registry
enumeration order — each location whose own device set shares a device
with the zone. `locs` stands for the `peac/list_locations` reply and
`devs` for `peac/list_devices` (deviceIds per locationId). A failure of
the device-listing step propagates. -/
def get_peac_locations (reg : Registry) (zc : ZoneControlsCfg)
    (locs : List Location) (devs : Nat → List Nat) (z : String) :
    Except DevErr (List Location) :=
  match (handle_list_devices reg zc z).1 with
  | Except.error e => Except.error e
  | Except.ok controls =>
    let device_ids := controls.map ZoneControl.deviceId
    Except.ok (locs.filter
      (fun loc => !(device_ids.inter (devs loc.locationId)).isEmpty))

/-- The two localization requests the dispatcher can issue: the
unconstrained `global_localization` call, or `polygon_localization` with
the polygon and frame taken from the zone. -/
inductive LocAction
  | globalLoc
  | polygonLoc (poly : List (Int × Int)) (frame : String)
deriving DecidableEq

/-- Failure of the dispatcher: unknown zone name (`KeyError` from
`self.zones[...]`, i.e. NotFound). -/
inductive LocErr
  | notFound
deriving DecidableEq

/-- Modelled from the spec: name lookup in the ZoneSet
(`self.zones[name]`, the `Zones` container is in `map_geometry.py`);
absent names fail with NotFound. -/
def zoneLookup (zones : List Zone) (name : String) : Option Zone :=
  zones.find? (fun z => z.name == name)

/-- `localize_in_zone` (lines 119–133): the literal comparison is
`zone_req.zone == 'NONE'`; that sentinel dispatches global localization,
anything else resolves the zone by name and dispatches a
polygon-constrained request carrying the zone's vertices and its
`frame_id`. -/
def localize_in_zone (zones : List Zone) (req : String) :
    Except LocErr LocAction :=
  if req == "NONE" then Except.ok LocAction.globalLoc
  else
    match zoneLookup zones req with
    | none => Except.error LocErr.notFound
    | some zn => Except.ok (LocAction.polygonLoc zn.vertices zn.frame_id)

/-- ENTER/EXIT actions of a `Transition` message. -/
inductive Action
  | enter
  | exit
deriving DecidableEq

/-- A published `Transition` message: action, zone, correlated
locations. -/
structure Transition where
  action : Action
  zone : Zone
  peac_locations : List Location
deriving DecidableEq

/-- The mutable state of the engine: `self.current_zones` and
`self.previous_zones`. -/
structure TState where
  current_zones : List Zone
  previous_zones : List Zone
deriving DecidableEq

/-- The state set up in `__init__` (lines 31–32): both lists empty. -/
def initialTState : TState := ⟨[], []⟩

/-- `set(xs) - set(ys)` over zones (lines 138–139), zone identity being
the name (modelled from the spec: `Zone` comes from `map_geometry.py`). -/
def zoneDiff (xs ys : List Zone) : List Zone :=
  xs.filter (fun z => ys.all (fun w => w.name != z.name))

/-- The `Transition(...)` message built on lines 141–145 and 148–152,
`matched` standing for `get_peac_locations` as used for the payload. -/
def mkTransition (matched : Zone → List Location) (a : Action) (z : Zone) :
    Transition :=
  ⟨a, z, matched z⟩

/-- `check_transition` (lines 135–153): when `current_zones` is non-empty,
publish one EXIT message per zone of `previous - current` and then one
ENTER message per zone of `current - previous`. The returned list is the
publication order. -/
def check_transition (matched : Zone → List Location) (s : TState) :
    List Transition :=
  if s.current_zones.isEmpty then []
  else
    (zoneDiff s.previous_zones s.current_zones).map
      (mkTransition matched Action.exit) ++
    (zoneDiff s.current_zones s.previous_zones).map
      (mkTransition matched Action.enter)

/-- The tail of `pose_cb` (lines 74–78) given the computed membership
`within_zones`: if it is empty nothing happens; otherwise
`previous_zones` becomes the old `current_zones`, `current_zones` becomes
the membership, and `check_transition` runs on the updated state. Returns
the new state and the published transitions. -/
def process_membership (matched : Zone → List Location) (s : TState)
    (within : List Zone) : TState × List Transition :=
  if within.isEmpty then (s, [])
  else
    let s' : TState := ⟨within, s.current_zones⟩
    (s', check_transition matched s')

/-- A message header: frame and timestamp. -/
structure Header where
  frame_id : String
  stamp : Nat
deriving DecidableEq

/-- A pose: 2-D position (the only part the server reads) plus an
orientation component. -/
structure Pose where
  px : Int
  py : Int
  orientation : Int
deriving DecidableEq

/-- `geometry_msgs/PoseStamped`. -/
structure PoseStamped where
  header : Header
  pose : Pose
deriving DecidableEq

/-- `geometry_msgs/PoseWithCovariance`: a pose plus a covariance matrix
(which the server never reads). -/
structure PoseWithCovariance where
  pose : Pose
  covariance : List Int
deriving DecidableEq

/-- `geometry_msgs/PoseWithCovarianceStamped` (the `amcl_pose` topic). -/
structure PoseWithCovarianceStamped where
  header : Header
  pose : PoseWithCovariance
deriving DecidableEq

/-- Velocity part of `nav_msgs/Odometry` (never read by the server). -/
structure Twist where
  linear : Int × Int
  angular : Int
deriving DecidableEq

/-- `nav_msgs/Odometry`: header, pose with covariance, twist. -/
structure Odometry where
  header : Header
  pose : PoseWithCovariance
  twist : Twist
deriving DecidableEq

/-- Line 71: `msg.header.stamp = rospy.Time(0)`. -/
def zeroStamp (msg : PoseStamped) : PoseStamped :=
  { msg with header := { msg.header with stamp := 0 } }

/-- `pose_cb` (lines 70–78). `transformPose` stands for
`self.tfl.transformPose('map', ...)` and `in_which` for
`self.zones.in_which` on the transformed 2-D point — both external to the
sources (tf, `map_geometry.py`) and passed in as functions. -/
def pose_cb (in_which : Int → Int → List Zone)
    (matched : Zone → List Location)
    (transformPose : PoseStamped → PoseStamped) (s : TState)
    (msg : PoseStamped) : TState × List Transition :=
  let t := transformPose (zeroStamp msg)
  process_membership matched s (in_which t.pose.px t.pose.py)

/-- Lines 87–89: the `PoseStamped` built from an odometry sample — the
odometry header and the inner pose; twist and covariance are dropped. -/
def stripOdom (msg : Odometry) : PoseStamped :=
  ⟨msg.header, msg.pose.pose⟩

/-- Lines 81–83: the `PoseStamped` built from a pose-with-covariance —
header and inner pose; covariance is dropped. -/
def stripCov (msg : PoseWithCovarianceStamped) : PoseStamped :=
  ⟨msg.header, msg.pose.pose⟩

/-- `odom_cb` (lines 86–90): forward the stripped message to `pose_cb`. -/
def odom_cb (in_which : Int → Int → List Zone)
    (matched : Zone → List Location)
    (transformPose : PoseStamped → PoseStamped) (s : TState)
    (msg : Odometry) : TState × List Transition :=
  pose_cb in_which matched transformPose s (stripOdom msg)

/-- `pose_with_cov_cb` (lines 80–84): forward the stripped message to
`pose_cb`. -/
def pose_with_cov_cb (in_which : Int → Int → List Zone)
    (matched : Zone → List Location)
    (transformPose : PoseStamped → PoseStamped) (s : TState)
    (msg : PoseWithCovarianceStamped) : TState × List Transition :=
  pose_cb in_which matched transformPose s (stripCov msg)

/-! Concrete fixtures used to exercise the definitions. -/

/-- The square zone `A` of the spec's test scenario. -/
def zA : Zone := ⟨"A", [(0, 0), (10, 0), (10, 10), (0, 10)], "map"⟩

/-- The square zone `B` of the spec's test scenario. -/
def zB : Zone := ⟨"B", [(5, 5), (15, 5), (15, 15), (5, 15)], "map"⟩

/-- A third zone used for transition scenarios. -/
def zC : Zone := ⟨"C", [(20, 0), (30, 0), (30, 10)], "map"⟩

/-- A small ZoneSet. -/
def zones0 : List Zone := [zA, zB]

/-- A registry knowing device 1 with one control (controlId 10, value 5). -/
def regC : Registry := fun d =>
  if d = 1 then Except.ok [⟨10, 5⟩] else Except.error ()

/-- A registry whose every call fails. -/
def regFail : Registry := fun _ => Except.error ()

/-- A zone-controls configuration: zone `A` has one descriptor
(deviceId 1, controlId 10). -/
def zcC : ZoneControlsCfg := [("A", [⟨1, 10, "power"⟩])]

/-- A trivial correlation function for transition fixtures. -/
def matchedFix : Zone → List Location := fun _ => []

/-- A location registry fixture. -/
def locsFix : List Location := [⟨1, "kitchen"⟩, ⟨2, "lab"⟩]

/-- Devices per location: location 1 holds devices 1 and 3, others
hold device 7. -/
def devsFix : Nat → List Nat := fun i => if i = 1 then [1, 3] else [7]

/-- A containment oracle fixture. -/
def iwFix : Int → Int → List Zone := fun _ _ => [zA]

/-- An identity frame transform fixture. -/
def trFix : PoseStamped → PoseStamped := id

/-- A header fixture. -/
def hdr0 : Header := ⟨"odom", 5⟩

/-- A pose fixture. -/
def pose0 : Pose := ⟨3, 4, 1⟩

/-- Odometry fixture. -/
def odo1 : Odometry := ⟨hdr0, ⟨pose0, [1, 2]⟩, ⟨(1, 1), 0⟩⟩

/-- Odometry with the same header and inner pose as `odo1` but different
covariance and twist. -/
def odo2 : Odometry := ⟨hdr0, ⟨pose0, [9, 9]⟩, ⟨(7, 2), 3⟩⟩

/-- Pose-with-covariance fixture. -/
def pcs1 : PoseWithCovarianceStamped := ⟨hdr0, ⟨pose0, [1]⟩⟩

/-- Same header and inner pose as `pcs1`, different covariance. -/
def pcs2 : PoseWithCovarianceStamped := ⟨hdr0, ⟨pose0, [2]⟩⟩

/-! Helper lemmas about the device-listing loop. -/

/-- Entries present in the cache survive a cache update. -/
theorem lookup_updateCache_isSome (ccs : List ControlInfo)
    (cache : List (Nat × ControlInfo)) (k : Nat)
    (h : (cache.lookup k).isSome) :
    ((updateCache cache ccs).lookup k).isSome := by
  induction ccs generalizing cache with
  | nil => simpa [updateCache] using h
  | cons cc rest ih =>
    show ((updateCache ((cc.controlId, cc) :: cache) rest).lookup k).isSome
    apply ih
    simp only [List.lookup]
    split
    · rfl
    · exact h

/-- Loop invariant of `listControlsAux`: if the controlIds logged so far
are pairwise distinct and each is already cached, then the final log has
pairwise-distinct controlIds and every logged entry is an old one or stems
from a descriptor still to process. -/
theorem listControlsAux_log_inv (reg : Registry) (z : String)
    (descs : List ControlDesc) :
    ∀ (cache : List (Nat × ControlInfo)) (log : List (Nat × Nat))
      (zcs : List ZoneControl),
      (log.map Prod.fst).Nodup →
      (∀ p ∈ log, (cache.lookup p.1).isSome) →
      ((((listControlsAux reg z descs cache log zcs).2.map Prod.fst).Nodup) ∧
        ∀ p ∈ (listControlsAux reg z descs cache log zcs).2,
          p ∈ log ∨ p.1 ∈ descs.map ControlDesc.controlId) := by
  induction descs with
  | nil =>
    intro cache log zcs h1 _h2
    refine ⟨?_, ?_⟩
    · simpa [listControlsAux] using h1
    · intro p hp
      simp only [listControlsAux] at hp
      exact Or.inl hp
  | cons c rest ih =>
    intro cache log zcs h1 h2
    rcases hcl : cache.lookup c.controlId with _ | cc
    · have hnotin : c.controlId ∉ log.map Prod.fst := by
        intro hmem
        rcases List.mem_map.mp hmem with ⟨p, hp, hpe⟩
        have hs := h2 p hp
        rw [hpe, hcl] at hs
        simp at hs
      have h1' : ((log ++ [(c.controlId, c.deviceId)]).map Prod.fst).Nodup := by
        rw [List.map_append]
        refine List.Nodup.append h1 (List.nodup_singleton _) ?_
        simpa [List.disjoint_singleton] using hnotin
      rcases hreg : reg c.deviceId with e | ccs
      · refine ⟨?_, ?_⟩
        · simpa [listControlsAux, hcl, hreg] using h1'
        · intro p hp
          simp only [listControlsAux, hcl, hreg] at hp
          rcases List.mem_append.mp hp with hl | hr
          · exact Or.inl hl
          · simp only [List.mem_singleton] at hr
            subst hr
            exact Or.inr (by simp)
      · rcases hcl2 : (updateCache cache ccs).lookup c.controlId with _ | cc2
        · refine ⟨?_, ?_⟩
          · simpa [listControlsAux, hcl, hreg, hcl2] using h1'
          · intro p hp
            simp only [listControlsAux, hcl, hreg, hcl2] at hp
            rcases List.mem_append.mp hp with hl | hr
            · exact Or.inl hl
            · simp only [List.mem_singleton] at hr
              subst hr
              exact Or.inr (by simp)
        · have h2' : ∀ p ∈ log ++ [(c.controlId, c.deviceId)],
              (((updateCache cache ccs).lookup p.1).isSome) := by
            intro p hp
            rcases List.mem_append.mp hp with hl | hr
            · exact lookup_updateCache_isSome ccs cache p.1 (h2 p hl)
            · simp only [List.mem_singleton] at hr
              subst hr
              simp [hcl2]
          have hrec := ih (updateCache cache ccs)
            (log ++ [(c.controlId, c.deviceId)]) (zcs ++ [mkZC z c cc2])
            h1' h2'
          refine ⟨?_, ?_⟩
          · simpa [listControlsAux, hcl, hreg, hcl2] using hrec.1
          · intro p hp
            simp only [listControlsAux, hcl, hreg, hcl2] at hp
            rcases hrec.2 p hp with hl | hr
            · rcases List.mem_append.mp hl with hll | hlr
              · exact Or.inl hll
              · simp only [List.mem_singleton] at hlr
                subst hlr
                exact Or.inr (by simp)
            · exact Or.inr (by simp [hr])
    · have hrec := ih cache log (zcs ++ [mkZC z c cc]) h1 h2
      refine ⟨?_, ?_⟩
      · simpa [listControlsAux, hcl] using hrec.1
      · intro p hp
        simp only [listControlsAux, hcl] at hp
        rcases hrec.2 p hp with hl | hr
        · exact Or.inl hl
        · exact Or.inr (by simp [hr])

/-- The registry-call log of one invocation has pairwise-distinct
controlIds. -/
theorem devQueryLog_nodup (reg : Registry) (zc : ZoneControlsCfg)
    (z : String) : ((devQueryLog reg zc z).map Prod.fst).Nodup :=
  (listControlsAux_log_inv reg z (zoneControlsFor zc z) [] [] []
    (by simp) (by simp)).1

/-- Every logged registry call was triggered by a configured descriptor's
controlId. -/
theorem devQueryLog_provenance (reg : Registry) (zc : ZoneControlsCfg)
    (z : String) :
    ∀ p ∈ devQueryLog reg zc z,
      p.1 ∈ (zoneControlsFor zc z).map ControlDesc.controlId := by
  intro p hp
  rcases (listControlsAux_log_inv reg z (zoneControlsFor zc z) [] [] []
    (by simp) (by simp)).2 p hp with hl | hr
  · simp at hl
  · exact hr

/-- `run_seq` computes each invocation from its own request alone. -/
theorem run_seq_get (zc : ZoneControlsCfg)
    (pairs : List (Registry × String)) (i : Nat) :
    (run_seq zc pairs).get? i =
      (pairs.get? i).map (fun pr => handle_list_devices pr.1 zc pr.2) := by
  induction pairs generalizing i with
  | nil => simp [run_seq]
  | cons pr rest ih =>
    cases i with
    | zero => simp [run_seq]
    | succ j => simpa [run_seq] using ih j

/-! Helper lemmas about the zone set difference. -/

/-- Membership in the zone difference, phrased by zone name. -/
theorem mem_zoneDiff {z : Zone} {xs ys : List Zone} :
    z ∈ zoneDiff xs ys ↔ z ∈ xs ∧ z.name ∉ ys.map Zone.name := by
  simp only [zoneDiff, List.mem_filter, List.all_eq_true, bne_iff_ne,
    ne_eq, List.mem_map, not_exists, not_and]

/-- Name-level membership in the zone difference. -/
theorem mem_map_name_zoneDiff {n : String} {xs ys : List Zone} :
    n ∈ (zoneDiff xs ys).map Zone.name ↔
      n ∈ xs.map Zone.name ∧ n ∉ ys.map Zone.name := by
  simp only [List.mem_map]
  constructor
  · rintro ⟨z, hz, rfl⟩
    rcases mem_zoneDiff.mp hz with ⟨hx, hn⟩
    refine ⟨⟨z, hx, rfl⟩, ?_⟩
    simpa [List.mem_map] using hn
  · rintro ⟨⟨z, hx, rfl⟩, hn⟩
    exact ⟨z, mem_zoneDiff.mpr ⟨hx, by simpa [List.mem_map] using hn⟩, rfl⟩

/-- The zone difference keeps names pairwise distinct. -/
theorem nodup_map_name_zoneDiff {xs ys : List Zone}
    (h : (xs.map Zone.name).Nodup) :
    ((zoneDiff xs ys).map Zone.name).Nodup :=
  List.Nodup.sublist (List.Sublist.map Zone.name (List.filter_sublist xs)) h

/-- The zone names carried by a batch of built transition messages. -/
theorem map_zone_name_mkTransition (matched : Zone → List Location)
    (a : Action) (l : List Zone) :
    ((l.map (mkTransition matched a)).map (fun e => e.zone.name)) =
      l.map Zone.name := by
  simp [mkTransition, Function.comp]

/-- What the per-pose update must satisfy when the computed membership `m`
is non-empty: `previous` becomes the old `current`, `current` becomes `m`,
and the emitted list splits into the EXIT block followed by the ENTER
block, each holding exactly one event per zone name of the corresponding
set difference. -/
def transitionSpec (s : TState) (m : List Zone)
    (out : TState × List Transition) : Prop :=
  out.1.previous_zones = s.current_zones ∧
  out.1.current_zones = m ∧
  ∃ exits enters,
    out.2 = exits ++ enters ∧
    (∀ e ∈ exits, e.action = Action.exit) ∧
    (∀ e ∈ enters, e.action = Action.enter) ∧
    ((exits.map (fun e => e.zone.name)).Nodup) ∧
    (∀ n, n ∈ exits.map (fun e => e.zone.name) ↔
      (n ∈ s.current_zones.map Zone.name ∧ n ∉ m.map Zone.name)) ∧
    ((enters.map (fun e => e.zone.name)).Nodup) ∧
    (∀ n, n ∈ enters.map (fun e => e.zone.name) ↔
      (n ∈ m.map Zone.name ∧ n ∉ s.current_zones.map Zone.name))

/-! Claim theorems. -/

/-- C1: For every processed pose whose computed membership is non-empty,
the engine sets `previous` to the old `current` and `current` to the new
membership, then emits exactly one EXIT transition per zone name of
`previous − current` followed by exactly one ENTER transition per zone
name of `current − previous`, every EXIT preceding every ENTER. -/
theorem transition_diff_events (matched : Zone → List Location) (s : TState)
    (m : List Zone) (hm : m ≠ [])
    (hcur : (s.current_zones.map Zone.name).Nodup)
    (hmem : (m.map Zone.name).Nodup) :
    transitionSpec s m (process_membership matched s m) := by
  have hne : m.isEmpty = false := by
    cases m with
    | nil => exact absurd rfl hm
    | cons a t => rfl
  have hpm : process_membership matched s m =
      (⟨m, s.current_zones⟩, check_transition matched ⟨m, s.current_zones⟩) := by
    simp [process_membership, hne]
  have hct : check_transition matched ⟨m, s.current_zones⟩ =
      (zoneDiff s.current_zones m).map (mkTransition matched Action.exit) ++
      (zoneDiff m s.current_zones).map (mkTransition matched Action.enter) := by
    simp [check_transition, hne]
  unfold transitionSpec
  rw [hpm]
  refine ⟨rfl, rfl,
    (zoneDiff s.current_zones m).map (mkTransition matched Action.exit),
    (zoneDiff m s.current_zones).map (mkTransition matched Action.enter),
    hct, ?_, ?_, ?_, ?_, ?_, ?_⟩
  · intro e he
    rcases List.mem_map.mp he with ⟨z, _, rfl⟩
    rfl
  · intro e he
    rcases List.mem_map.mp he with ⟨z, _, rfl⟩
    rfl
  · rw [map_zone_name_mkTransition]
    exact nodup_map_name_zoneDiff hcur
  · intro n
    rw [map_zone_name_mkTransition]
    exact mem_map_name_zoneDiff
  · rw [map_zone_name_mkTransition]
    exact nodup_map_name_zoneDiff hmem
  · intro n
    rw [map_zone_name_mkTransition]
    exact mem_map_name_zoneDiff

/-- Witness for C1 on a concrete scenario: state currently `{A, B}`, new
membership `{B, C}`. -/
theorem transition_diff_events_witness :
    (([zB, zC] : List Zone) ≠ [] ∧
      (([zA, zB].map Zone.name).Nodup) ∧ (([zB, zC].map Zone.name).Nodup)) ∧
    transitionSpec ⟨[zA, zB], []⟩ [zB, zC]
      (process_membership matchedFix ⟨[zA, zB], []⟩ [zB, zC]) :=
  ⟨⟨by decide, by decide, by decide⟩,
    transition_diff_events matchedFix ⟨[zA, zB], []⟩ [zB, zC]
      (by decide) (by decide) (by decide)⟩

/-- C2: A pose whose computed membership is empty leaves `current` and
`previous` untouched and emits no transition. -/
theorem empty_membership_noop (matched : Zone → List Location) (s : TState) :
    process_membership matched s [] = (s, []) := rfl

/-- C3: On the first-ever non-empty membership, starting from the initial
state (both membership lists empty), every zone of the membership yields
an ENTER transition and nothing else is emitted. -/
theorem first_membership_all_enter (matched : Zone → List Location)
    (m : List Zone) (hm : m ≠ []) :
    process_membership matched initialTState m =
      (⟨m, []⟩, m.map (mkTransition matched Action.enter)) ∧
    ∀ e ∈ (process_membership matched initialTState m).2,
      e.action = Action.enter := by
  have hne : m.isEmpty = false := by
    cases m with
    | nil => exact absurd rfl hm
    | cons a t => rfl
  have h1 : process_membership matched initialTState m =
      (⟨m, []⟩, m.map (mkTransition matched Action.enter)) := by
    simp [process_membership, initialTState, hne, check_transition, zoneDiff]
  refine ⟨h1, ?_⟩
  rw [h1]
  intro e he
  rcases List.mem_map.mp he with ⟨z, _, rfl⟩
  rfl

/-- Witness for C3: first membership `[zA]`. -/
theorem first_membership_all_enter_witness :
    (([zA] : List Zone) ≠ []) ∧
    (process_membership matchedFix initialTState [zA] =
      (⟨[zA], []⟩, [zA].map (mkTransition matchedFix Action.enter)) ∧
    ∀ e ∈ (process_membership matchedFix initialTState [zA]).2,
      e.action = Action.enter) :=
  ⟨by decide, first_membership_all_enter matchedFix [zA] (by decide)⟩

/-- C4, counterexample: the claim's sentinel is the lowercase string
"none", but the code compares against 'NONE'; on a ZoneSet without a zone
literally named "none" the request fails with NotFound instead of
dispatching global localization. -/
theorem localize_none_lowercase_not_global :
    localize_in_zone zones0 "none" = Except.error LocErr.notFound ∧
    ¬ (localize_in_zone zones0 "none" = Except.ok LocAction.globalLoc) := by
  refine ⟨by rfl, ?_⟩
  intro h
  rw [show localize_in_zone zones0 "none" = Except.error LocErr.notFound
    from rfl] at h
  exact Except.noConfusion h

/-- C4, amended: `localize_in_zone` with the sentinel "NONE" (the literal
the code compares against) dispatches an unconstrained global request; any
other input resolves the zone by name and dispatches a
polygon-constrained request carrying that zone's vertices and frame
identifier, and fails with NotFound when the name is absent. -/
theorem localize_dispatch (zones : List Zone) (req : String) :
    (req = "NONE" → localize_in_zone zones req = Except.ok LocAction.globalLoc) ∧
    (req ≠ "NONE" → ∀ zn, zoneLookup zones req = some zn →
      localize_in_zone zones req =
        Except.ok (LocAction.polygonLoc zn.vertices zn.frame_id)) ∧
    (req ≠ "NONE" → zoneLookup zones req = none →
      localize_in_zone zones req = Except.error LocErr.notFound) := by
  refine ⟨?_, ?_, ?_⟩
  · intro h
    simp [localize_in_zone, h]
  · intro hne zn hzn
    have hb : (req == "NONE") = false := beq_eq_false_iff_ne.mpr hne
    simp [localize_in_zone, hb, hzn]
  · intro hne hzn
    have hb : (req == "NONE") = false := beq_eq_false_iff_ne.mpr hne
    simp [localize_in_zone, hb, hzn]

/-- Witness for the amended C4 on `zones0`: the sentinel, a present zone
and an absent zone. -/
theorem localize_dispatch_witness :
    (("NONE" : String) = "NONE" ∧ ("A" : String) ≠ "NONE" ∧
      zoneLookup zones0 "A" = some zA ∧ ("missing" : String) ≠ "NONE" ∧
      zoneLookup zones0 "missing" = none) ∧
    (localize_in_zone zones0 "NONE" = Except.ok LocAction.globalLoc ∧
      localize_in_zone zones0 "A" =
        Except.ok (LocAction.polygonLoc zA.vertices zA.frame_id) ∧
      localize_in_zone zones0 "missing" = Except.error LocErr.notFound) :=
  ⟨⟨rfl, by decide, by decide, by decide, by decide⟩,
    ⟨(localize_dispatch zones0 "NONE").1 rfl,
      (localize_dispatch zones0 "A").2.1 (by decide) zA (by decide),
      (localize_dispatch zones0 "missing").2.2 (by decide) (by decide)⟩⟩

/-- C5: within one `handle_list_devices` invocation the registry is
queried at most once per distinct controlId (the logged controlIds are
pairwise distinct and all come from the zone's descriptors), and the
control cache is created fresh per invocation: in a sequence of
invocations each result is computed from its own request alone. -/
theorem request_scoped_cache_queries (reg : Registry) (zc : ZoneControlsCfg)
    (z : String) :
    (((devQueryLog reg zc z).map Prod.fst).Nodup) ∧
    (∀ p ∈ devQueryLog reg zc z,
      p.1 ∈ (zoneControlsFor zc z).map ControlDesc.controlId) ∧
    (∀ (pairs : List (Registry × String)) (i : Nat),
      (run_seq zc pairs).get? i =
        (pairs.get? i).map (fun pr => handle_list_devices pr.1 zc pr.2)) :=
  ⟨devQueryLog_nodup reg zc z, devQueryLog_provenance reg zc z,
    fun pairs i => run_seq_get zc pairs i⟩

/-- The combined registry-call log of two lock-serialized
`handle_list_devices` invocations, run one after the other. -/
def serializedPairLog (reg : Registry) (zc : ZoneControlsCfg)
    (z1 z2 : String) : List (Nat × Nat) :=
  devQueryLog reg zc z1 ++ devQueryLog reg zc z2

/-- C6, counterexample: two serialized invocations for the same zone each
query the registry for controlId 10 — the control cache is request-scoped,
so across the combined pair the registry is queried twice for one distinct
controlId, not at most once. -/
theorem serialized_pair_single_query_false :
    ¬ (((serializedPairLog regC zcC "A" "A").map Prod.fst).count 10 ≤ 1) := by
  decide

/-- C6, amended: two serialized `ListDevicesInZone` invocations (modelled
as sequential composition, which is what the shared coarse lock enforces)
query the registry at most once per distinct controlId within each
invocation, hence at most twice per distinct controlId across the
combined pair. -/
theorem serialized_pair_query_bound (reg : Registry) (zc : ZoneControlsCfg)
    (z1 z2 : String) (cid : Nat) :
    ((serializedPairLog reg zc z1 z2).map Prod.fst).count cid ≤ 2 := by
  have h1 := List.nodup_iff_count_le_one.mp (devQueryLog_nodup reg zc z1) cid
  have h2 := List.nodup_iff_count_le_one.mp (devQueryLog_nodup reg zc z2) cid
  calc ((serializedPairLog reg zc z1 z2).map Prod.fst).count cid
      = ((devQueryLog reg zc z1).map Prod.fst).count cid +
        ((devQueryLog reg zc z2).map Prod.fst).count cid := by
        simp [serializedPairLog, List.count_append]
    _ ≤ 1 + 1 := Nat.add_le_add h1 h2
    _ = 2 := rfl

/-- Non-emptiness of a list intersection, phrased as a shared element. -/
theorem inter_not_empty_iff {l1 l2 : List Nat} :
    ((l1.inter l2).isEmpty = false) ↔ ∃ d ∈ l1, d ∈ l2 := by
  constructor
  · intro h
    have hne : l1.inter l2 ≠ [] := by
      intro hnil
      rw [hnil] at h
      simp at h
    rcases List.exists_cons_of_ne_nil hne with ⟨a, t, hat⟩
    have hd : a ∈ l1.inter l2 := by
      rw [hat]
      exact List.mem_cons_self a t
    rcases List.mem_inter_iff.mp hd with ⟨ha1, ha2⟩
    exact ⟨a, ha1, ha2⟩
  · rintro ⟨d, h1, h2⟩
    have hd : d ∈ l1.inter l2 := List.mem_inter_iff.mpr ⟨h1, h2⟩
    cases hl : l1.inter l2 with
    | nil =>
      rw [hl] at hd
      simp at hd
    | cons a t => rfl

/-- C7: whenever the zone's controls resolve successfully,
`get_peac_locations` returns exactly the locations whose device set
shares a device with the zone's device set, as a sublist — hence in
registry enumeration order — of the registry's location list. -/
theorem matched_locations_spec (reg : Registry) (zc : ZoneControlsCfg)
    (locs : List Location) (devs : Nat → List Nat) (z : String)
    (controls : List ZoneControl)
    (h : (handle_list_devices reg zc z).1 = Except.ok controls) :
    ∃ ms, get_peac_locations reg zc locs devs z = Except.ok ms ∧
      ms.Sublist locs ∧
      ∀ loc, loc ∈ ms ↔ loc ∈ locs ∧
        ∃ d ∈ controls.map ZoneControl.deviceId, d ∈ devs loc.locationId := by
  refine ⟨locs.filter (fun loc =>
      !((controls.map ZoneControl.deviceId).inter (devs loc.locationId)).isEmpty),
    ?_, List.filter_sublist locs, ?_⟩
  · unfold get_peac_locations
    rw [h]
  · intro loc
    rw [List.mem_filter]
    constructor
    · rintro ⟨hmem, hcond⟩
      refine ⟨hmem, ?_⟩
      rw [Bool.not_eq_true'] at hcond
      exact inter_not_empty_iff.mp hcond
    · rintro ⟨hmem, hshared⟩
      refine ⟨hmem, ?_⟩
      rw [Bool.not_eq_true']
      exact inter_not_empty_iff.mpr hshared

/-- Witness for C7: zone `A` resolves to device 1; location 1 shares
device 1, location 2 shares nothing. -/
theorem matched_locations_spec_witness :
    ((handle_list_devices regC zcC "A").1 =
      Except.ok [⟨"A", 10, 1, "power", 5⟩]) ∧
    (∃ ms, get_peac_locations regC zcC locsFix devsFix "A" = Except.ok ms ∧
      ms.Sublist locsFix ∧
      ∀ loc, loc ∈ ms ↔ loc ∈ locsFix ∧
        ∃ d ∈ ([⟨"A", 10, 1, "power", 5⟩] : List ZoneControl).map
          ZoneControl.deviceId, d ∈ devsFix loc.locationId) :=
  ⟨rfl,
    matched_locations_spec regC zcC locsFix devsFix "A"
      [⟨"A", 10, 1, "power", 5⟩] rfl⟩

/-- C8: when the registry call for the first descriptor of a zone fails,
`handle_list_devices` returns the failure to its caller after exactly that
one registry call (no retry), and a subsequent invocation — the cache
being request-scoped — computes exactly what it would compute had the
failed invocation never run. -/
theorem registry_failure_propagates (reg1 reg2 : Registry)
    (zc : ZoneControlsCfg) (z z2 : String) (c : ControlDesc)
    (rest : List ControlDesc) (hdesc : zoneControlsFor zc z = c :: rest)
    (hfail : reg1 c.deviceId = Except.error ()) :
    handle_list_devices reg1 zc z =
      (Except.error DevErr.registryFail, [(c.controlId, c.deviceId)]) ∧
    (run_seq zc [(reg1, z), (reg2, z2)]).get? 1 =
      (run_seq zc [(reg2, z2)]).get? 0 := by
  constructor
  · unfold handle_list_devices
    rw [hdesc]
    simp [listControlsAux, hfail]
  · rfl

/-- Witness for C8: an always-failing registry on zone `A`, followed by a
working invocation. -/
theorem registry_failure_propagates_witness :
    (zoneControlsFor zcC "A" = [⟨1, 10, "power"⟩] ∧
      regFail (⟨1, 10, "power"⟩ : ControlDesc).deviceId = Except.error ()) ∧
    (handle_list_devices regFail zcC "A" =
      (Except.error DevErr.registryFail, [(10, 1)]) ∧
    (run_seq zcC [(regFail, "A"), (regC, "A")]).get? 1 =
      (run_seq zcC [(regC, "A")]).get? 0) :=
  ⟨⟨by decide, rfl⟩,
    registry_failure_propagates regFail regC zcC "A" "A" ⟨1, 10, "power"⟩ []
      (by decide) rfl⟩

/-- What C9 demands of the three observation channels: the odometry and
covariance callbacks behave exactly like the plain pose callback on the
stripped header-plus-pose message, and two samples differing only in
twist or covariance are indistinguishable to the server. -/
def channelEquivSpec (iw : Int → Int → List Zone)
    (matched : Zone → List Location) (tr : PoseStamped → PoseStamped)
    (s : TState) (o o' : Odometry)
    (pc pc' : PoseWithCovarianceStamped) : Prop :=
  odom_cb iw matched tr s o = pose_cb iw matched tr s ⟨o.header, o.pose.pose⟩ ∧
  pose_with_cov_cb iw matched tr s pc =
    pose_cb iw matched tr s ⟨pc.header, pc.pose.pose⟩ ∧
  odom_cb iw matched tr s o' = odom_cb iw matched tr s o ∧
  pose_with_cov_cb iw matched tr s pc' = pose_with_cov_cb iw matched tr s pc

/-- C9: processing an odometry or pose-with-covariance observation has
exactly the effect of processing the plain pose with the same header and
pose; velocity and covariance are ignored. -/
theorem observation_channels_equiv (iw : Int → Int → List Zone)
    (matched : Zone → List Location) (tr : PoseStamped → PoseStamped)
    (s : TState) (o o' : Odometry) (pc pc' : PoseWithCovarianceStamped)
    (h1 : o'.header = o.header) (h2 : o'.pose.pose = o.pose.pose)
    (h3 : pc'.header = pc.header) (h4 : pc'.pose.pose = pc.pose.pose) :
    channelEquivSpec iw matched tr s o o' pc pc' := by
  refine ⟨rfl, rfl, ?_, ?_⟩
  · simp [odom_cb, stripOdom, h1, h2]
  · simp [pose_with_cov_cb, stripCov, h3, h4]

/-- Witness for C9 on concrete messages differing only in covariance and
twist. -/
theorem observation_channels_equiv_witness :
    (odo2.header = odo1.header ∧ odo2.pose.pose = odo1.pose.pose ∧
      pcs2.header = pcs1.header ∧ pcs2.pose.pose = pcs1.pose.pose) ∧
    channelEquivSpec iwFix matchedFix trFix initialTState odo1 odo2
      pcs1 pcs2 :=
  ⟨⟨by decide, by decide, by decide, by decide⟩,
    observation_channels_equiv iwFix matchedFix trFix initialTState odo1 odo2
      pcs1 pcs2 (by decide) (by decide) (by decide) (by decide)⟩

/-- C10: a zone with no configured descriptors — in particular a name
absent from the zone-controls configuration — yields a successful empty
reply and an empty registry-call log. -/
theorem no_descriptors_ok_empty (reg : Registry) (zc : ZoneControlsCfg)
    (z : String) (h : zoneControlsFor zc z = []) :
    handle_list_devices reg zc z = (Except.ok [], []) := by
  unfold handle_list_devices
  rw [h]
  rfl

/-- Witness for C10: the name "B" is absent from `zcC` entirely. -/
theorem no_descriptors_ok_empty_witness :
    zoneControlsFor zcC "B" = [] ∧
    handle_list_devices regFail zcC "B" = (Except.ok [], []) :=
  ⟨by decide, no_descriptors_ok_empty regFail zcC "B" (by decide)⟩

end ZoneServer
